import Mathlib

/-!
Verification of the tencent3 client core: the TC3 request signer
(src/api/utils.rs) and the retrying execution engine (src/api/tmt.rs).

The Rust source is shallowly embedded: pure functions become Lean
functions on Nat/Int/String; the stateful engine loop becomes a pure
function from its environmental inputs (delegate decisions and per-attempt
transport outcomes) to an action trace plus a result; code that can panic
returns Option.
-/

namespace Tencent3

/-! ## Bytes, hex, UTF-8 -/

/-- Lowercase hexadecimal digit, as produced by the `{:02x}` format. -/
def hexDigit (n : Nat) : Char :=
  if n < 10 then Char.ofNat (48 + n) else Char.ofNat (87 + n)

/-- One byte as two lowercase hex digits (`write!(hex_string, "{:02x}", byte)`). -/
def byteHex (b : Nat) : String :=
  String.mk [hexDigit (b / 16 % 16), hexDigit (b % 16)]

/-- `to_hex_string` from src/api/utils.rs: fold the bytes left to right,
appending two lowercase hex digits per byte. -/
def to_hex_string (bytes : List Nat) : String :=
  bytes.foldl (fun acc b => acc ++ byteHex b) ""

/-- UTF-8 encoding of one Unicode scalar value, as Rust `str` bytes. -/
def utf8EncodeChar (n : Nat) : List Nat :=
  if n < 0x80 then [n]
  else if n < 0x800 then
    [0xC0 ||| (n >>> 6), 0x80 ||| (n &&& 0x3F)]
  else if n < 0x10000 then
    [0xE0 ||| (n >>> 12), 0x80 ||| ((n >>> 6) &&& 0x3F), 0x80 ||| (n &&& 0x3F)]
  else
    [0xF0 ||| (n >>> 18), 0x80 ||| ((n >>> 12) &&& 0x3F),
     0x80 ||| ((n >>> 6) &&& 0x3F), 0x80 ||| (n &&& 0x3F)]

/-- The byte content of a Rust `&str`: UTF-8 bytes of its characters. -/
def strBytes (s : String) : List Nat :=
  (s.data.map Char.toNat).flatMap utf8EncodeChar

/-! ## SHA-256 (the `sha2::Sha256` the source hashes and signs with) -/

/-- Truncation to a 32-bit word. -/
def w32 (n : Nat) : Nat := n % 4294967296

/-- Rotate a 32-bit word right by `n` bits. -/
def rotr32 (n x : Nat) : Nat := w32 ((x >>> n) ||| (x <<< (32 - n)))

def sha256K : List Nat :=
  [1116352408, 1899447441, 3049323471, 3921009573, 961987163,
   1508970993, 2453635748, 2870763221, 3624381080, 310598401,
   607225278, 1426881987, 1925078388, 2162078206, 2614888103,
   3248222580, 3835390401, 4022224774, 264347078, 604807628,
   770255983, 1249150122, 1555081692, 1996064986, 2554220882,
   2821834349, 2952996808, 3210313671, 3336571891, 3584528711,
   113926993, 338241895, 666307205, 773529912, 1294757372,
   1396182291, 1695183700, 1986661051, 2177026350, 2456956037,
   2730485921, 2820302411, 3259730800, 3345764771, 3516065817,
   3600352804, 4094571909, 275423344, 430227734, 506948616,
   659060556, 883997877, 958139571, 1322822218, 1537002063,
   1747873779, 1955562222, 2024104815, 2227730452, 2361852424,
   2428436474, 2756734187, 3204031479, 3329325298]

structure Sha256State where
  a : Nat
  b : Nat
  c : Nat
  d : Nat
  e : Nat
  f : Nat
  g : Nat
  h : Nat

def sha256Init : Sha256State :=
  ⟨1779033703, 3144134277, 1013904242, 2773480762,
   1359893119, 2600822924, 528734635, 1541459225⟩

def smallSigma0 (x : Nat) : Nat := rotr32 7 x ^^^ rotr32 18 x ^^^ (x >>> 3)

def smallSigma1 (x : Nat) : Nat := rotr32 17 x ^^^ rotr32 19 x ^^^ (x >>> 10)

def bigSigma0 (x : Nat) : Nat := rotr32 2 x ^^^ rotr32 13 x ^^^ rotr32 22 x

def bigSigma1 (x : Nat) : Nat := rotr32 6 x ^^^ rotr32 11 x ^^^ rotr32 25 x

def chF (x y z : Nat) : Nat := (x &&& y) ^^^ ((x ^^^ 0xffffffff) &&& z)

def majF (x y z : Nat) : Nat := (x &&& y) ^^^ (x &&& z) ^^^ (y &&& z)

/-- Message schedule: extend 16 block words to 64 words. -/
def sha256Schedule (block : List Nat) : List Nat :=
  let full := (List.range 48).foldl (fun ws i =>
    let t := i + 16
    let s1 := smallSigma1 (ws.getD (t - 2) 0)
    let s0 := smallSigma0 (ws.getD (t - 15) 0)
    ws.push (w32 (s1 + ws.getD (t - 7) 0 + s0 + ws.getD (t - 16) 0))) block.toArray
  full.toList

def sha256Round (st : Sha256State) (kw : Nat × Nat) : Sha256State :=
  let t1 := w32 (st.h + bigSigma1 st.e + chF st.e st.f st.g + kw.1 + kw.2)
  let t2 := w32 (bigSigma0 st.a + majF st.a st.b st.c)
  ⟨w32 (t1 + t2), st.a, st.b, st.c, w32 (st.d + t1), st.e, st.f, st.g⟩

def sha256Block (st : Sha256State) (block : List Nat) : Sha256State :=
  let r := (sha256K.zip (sha256Schedule block)).foldl sha256Round st
  ⟨w32 (st.a + r.a), w32 (st.b + r.b), w32 (st.c + r.c), w32 (st.d + r.d),
   w32 (st.e + r.e), w32 (st.f + r.f), w32 (st.g + r.g), w32 (st.h + r.h)⟩

/-- 64-bit big-endian length field of the SHA-256 padding. -/
def be64 (n : Nat) : List Nat :=
  [(n >>> 56) &&& 255, (n >>> 48) &&& 255, (n >>> 40) &&& 255, (n >>> 32) &&& 255,
   (n >>> 24) &&& 255, (n >>> 16) &&& 255, (n >>> 8) &&& 255, n &&& 255]

/-- 32-bit big-endian bytes of a word. -/
def be32 (n : Nat) : List Nat :=
  [(n >>> 24) &&& 255, (n >>> 16) &&& 255, (n >>> 8) &&& 255, n &&& 255]

/-- Merkle-Damgard padding: 0x80, zeros to 56 mod 64, then the bit length.
The zero count is the unique k < 64 with len + 1 + k congruent to 56 mod 64,
computed as (119 - len % 64) % 64 so the subtraction never truncates. -/
def sha256Pad (msg : List Nat) : List Nat :=
  let len := msg.length
  msg ++ [0x80] ++ List.replicate ((119 - len % 64) % 64) 0 ++ be64 (len * 8)

/-- Big-endian 32-bit word at word index `i` of a byte list. -/
def word32At (bs : List Nat) (i : Nat) : Nat :=
  (bs.getD (4 * i) 0 <<< 24) ||| (bs.getD (4 * i + 1) 0 <<< 16) |||
  (bs.getD (4 * i + 2) 0 <<< 8) ||| bs.getD (4 * i + 3) 0

/-- SHA-256 of a byte list, as a 32-byte list. -/
def sha256 (msg : List Nat) : List Nat :=
  let padded := sha256Pad msg
  let nblocks := padded.length / 64
  let fin := (List.range nblocks).foldl (fun st i =>
    sha256Block st ((List.range 16).map (fun j => word32At ((padded.drop (64 * i)).take 64) j)))
    sha256Init
  be32 fin.a ++ be32 fin.b ++ be32 fin.c ++ be32 fin.d ++
  be32 fin.e ++ be32 fin.f ++ be32 fin.g ++ be32 fin.h

/-- `sha256_hex` from src/api/utils.rs: lowercase hex of the SHA-256 digest. -/
def sha256_hex (payload : List Nat) : String :=
  to_hex_string (sha256 payload)

/-! ## HMAC-SHA256 (the `hmac::Hmac<Sha256>` of the source) -/

/-- HMAC key normalization: hash keys longer than the 64-byte block, then
pad with zeros to the block size. -/
def hmacBlockKey (key : List Nat) : List Nat :=
  let k := if 64 < key.length then sha256 key else key
  k ++ List.replicate (64 - k.length) 0

/-- `hmac_sha256` from src/api/utils.rs. The argument order matches the
source: message first, key second. -/
def hmac_sha256 (payload key : List Nat) : List Nat :=
  let k := hmacBlockKey key
  sha256 ((k.map (fun b => b ^^^ 0x5c)) ++ sha256 ((k.map (fun b => b ^^^ 0x36)) ++ payload))

/-! ## Base64 (`to_base64` from src/api/utils.rs, STANDARD_NO_PAD) -/

def base64Char (n : Nat) : Char :=
  if n < 26 then Char.ofNat (65 + n)
  else if n < 52 then Char.ofNat (97 + (n - 26))
  else if n < 62 then Char.ofNat (48 + (n - 52))
  else if n = 62 then Char.ofNat 43
  else Char.ofNat 47

def to_base64Core : List Nat → List Char
  | [] => []
  | [a] => [base64Char (a >>> 2), base64Char ((a &&& 3) <<< 4)]
  | [a, b] =>
    [base64Char (a >>> 2), base64Char (((a &&& 3) <<< 4) ||| (b >>> 4)),
     base64Char ((b &&& 15) <<< 2)]
  | a :: b :: c :: rest =>
    base64Char (a >>> 2) :: base64Char (((a &&& 3) <<< 4) ||| (b >>> 4)) ::
    base64Char (((b &&& 15) <<< 2) ||| (c >>> 6)) :: base64Char (c &&& 63) ::
    to_base64Core rest

/-- `to_base64` from src/api/utils.rs: standard alphabet, no padding. -/
def to_base64 (bytes : List Nat) : String :=
  String.mk (to_base64Core bytes)

/-! ## Calendar arithmetic (the chrono behavior the signer relies on) -/

/-- Days from the civil epoch 1970-01-01 of a proleptic Gregorian date
(the arithmetic chrono performs for timestamps). -/
def daysFromCivil (y : Int) (m d : Nat) : Int :=
  let y' : Int := if m ≤ 2 then y - 1 else y
  let era : Int := Int.fdiv y' 400
  let yoe : Nat := (y' - era * 400).toNat
  let doy : Nat := (153 * (if 2 < m then m - 3 else m + 9) + 2) / 5 + d - 1
  let doe : Nat := yoe * 365 + yoe / 4 - yoe / 100 + doy
  era * 146097 + (doe : Int) - 719468

/-- Civil date (year, month, day) of a day count from 1970-01-01. -/
def civilFromDays (z : Int) : Int × Nat × Nat :=
  let z' := z + 719468
  let era : Int := Int.fdiv z' 146097
  let doe : Nat := (z' - era * 146097).toNat
  let yoe : Nat := (doe - doe / 1460 + doe / 36524 - doe / 146096) / 365
  let y : Int := (yoe : Int) + era * 400
  let doy : Nat := doe - (365 * yoe + yoe / 4 - yoe / 100)
  let mp : Nat := (5 * doy + 2) / 153
  let d : Nat := doy - (153 * mp + 2) / 5 + 1
  let m : Nat := if mp < 10 then mp + 3 else mp - 9
  (if m ≤ 2 then y + 1 else y, m, d)

/-- chrono year bounds: `MIN_YEAR = i32::MIN >> 13`, `MAX_YEAR = i32::MAX >> 13`. -/
def chronoMinTs : Int := daysFromCivil (-262144) 1 1 * 86400

def chronoMaxTs : Int := daysFromCivil 262143 12 31 * 86400 + 86399

/-- `Utc.timestamp_opt(secs, 0)`: defined exactly when the instant is within
the chrono-representable range; the source unwraps the result, so an
out-of-range timestamp panics (modelled as `none`). -/
def timestampOpt (secs : Int) : Option Int :=
  if chronoMinTs ≤ secs ∧ secs ≤ chronoMaxTs then some secs else none

/-- Zero-padding to two digits, as chrono `%m` and `%d`. -/
def pad2 (n : Nat) : String :=
  if n < 10 then "0" ++ toString n else toString n

/-- chrono `%Y`: absolute value padded to four digits; a minus sign for
negative years and a plus sign for years of five or more digits. -/
def formatYearChrono (y : Int) : String :=
  let a := toString y.natAbs
  let p := if a.length < 4 then String.mk (List.replicate (4 - a.length) '0') ++ a else a
  (if y < 0 then "-" else if 10000 ≤ y then "+" else "") ++ p

/-- `datetime.format("%F")` of a Unix timestamp: the ISO 8601 date. -/
def formatDateF (secs : Int) : String :=
  let c := civilFromDays (Int.fdiv secs 86400)
  formatYearChrono c.1 ++ "-" ++ pad2 c.2.1 ++ "-" ++ pad2 c.2.2

/-- The Rust cast `t as i64` applied to a `u64` value. -/
def i64OfU64 (t : Nat) : Int :=
  if t % 18446744073709551616 < 9223372036854775808 then ((t % 18446744073709551616 : Nat) : Int)
  else ((t % 18446744073709551616 : Nat) : Int) - 18446744073709551616

/-! ## The signer (`signature_v3_with_post` from src/api/utils.rs) -/

def HMAC_ALGORITHM : String := "TC3-HMAC-SHA256"

structure SignatureV3Arg where
  content_type : String
  host : String
  request_payload : String
  service : String
  secret_key : String
  secret_id : String
  timestamp : Nat

/-- `signature_v3_with_post` from src/api/utils.rs. The impure
`Utc::now()` consulted when `timestamp == 0` is passed explicitly as
`now`; the `unwrap` of `Utc.timestamp_opt` is modelled by Option, with
`none` standing for the panic. -/
def signature_v3_with_post (now : Int) (arg : SignatureV3Arg) : Option String :=
  let hashed_payload := sha256_hex (strBytes arg.request_payload)
  let signed_header := "content-type;host"
  let canonical_request :=
    "POST\n" ++ "/" ++ "\n" ++ "" ++ "\ncontent-type:" ++ arg.content_type ++
    "\nhost:" ++ arg.host ++ "\n\n" ++ signed_header ++ "\n" ++ hashed_payload
  let secs? : Option Int :=
    if arg.timestamp = 0 then some now else timestampOpt (i64OfU64 arg.timestamp)
  match secs? with
  | none => none
  | some secs =>
    let date := formatDateF secs
    let canonical_scope := date ++ "/" ++ arg.service ++ "/tc3_request"
    let hashed_canonical_request := sha256_hex (strBytes canonical_request)
    let sign_string :=
      HMAC_ALGORITHM ++ "\n" ++ toString secs ++ "\n" ++ canonical_scope ++ "\n" ++
      hashed_canonical_request
    let secret_date := hmac_sha256 (strBytes date) (strBytes ("TC3" ++ arg.secret_key))
    let secret_service := hmac_sha256 (strBytes arg.service) secret_date
    let secret_key := hmac_sha256 (strBytes "tc3_request") secret_service
    let signature := to_hex_string (hmac_sha256 (strBytes sign_string) secret_key)
    some (HMAC_ALGORITHM ++ " Credential=" ++ arg.secret_id ++ "/" ++ canonical_scope ++
      ", SignedHeaders=" ++ signed_header ++ ", Signature=" ++ signature)

/-! ## Spec-side TC3 model

A second signature definition written from the words of spec.md section 4.1,
steps 1 to 9, to be compared with `signature_v3_with_post` above. The spec
writes key derivation as HMAC(key, message); `hmacKeyMsg` fixes that reading.
The timestamp is interpreted through the source's u64-to-i64 cast. -/

/-- HMAC-SHA256 in the spec notation: key first, message second. -/
def hmacKeyMsg (key msg : List Nat) : List Nat := hmac_sha256 msg key

/-- The signature string of spec.md section 4.1 for a nonzero timestamp:
steps 1 to 9 transcribed. -/
def tc3SpecSignature (arg : SignatureV3Arg) : String :=
  let hashed_payload := sha256_hex (strBytes arg.request_payload)
  let signed_header_names := "content-type;host"
  let canonical_request :=
    "POST\n" ++ "/" ++ "\n" ++ "" ++ "\ncontent-type:" ++ arg.content_type ++
    "\nhost:" ++ arg.host ++ "\n\n" ++ signed_header_names ++ "\n" ++ hashed_payload
  let ts : Int := i64OfU64 arg.timestamp
  let date := formatDateF ts
  let credential_scope := date ++ "/" ++ arg.service ++ "/tc3_request"
  let hashed_canonical_request := sha256_hex (strBytes canonical_request)
  let string_to_sign :=
    "TC3-HMAC-SHA256" ++ "\n" ++ toString ts ++ "\n" ++ credential_scope ++ "\n" ++
    hashed_canonical_request
  let k_date := hmacKeyMsg (strBytes ("TC3" ++ arg.secret_key)) (strBytes date)
  let k_service := hmacKeyMsg k_date (strBytes arg.service)
  let k_signing := hmacKeyMsg k_service (strBytes "tc3_request")
  let signature := to_hex_string (hmacKeyMsg k_signing (strBytes string_to_sign))
  "TC3-HMAC-SHA256" ++ " Credential=" ++ arg.secret_id ++ "/" ++ credential_scope ++
    ", SignedHeaders=" ++ signed_header_names ++ ", Signature=" ++ signature

/-- The chrono validity of a timestamp, as a decidable predicate. -/
def chronoValidTs (secs : Int) : Bool :=
  decide (chronoMinTs ≤ secs ∧ secs ≤ chronoMaxTs)

/-! ## The execution engine (`doit` from src/api/tmt.rs)

The engine is embedded as a pure function from its environmental inputs to
an action trace and a result. The delegate callbacks that return data
(`retry_times`, `http_error`, `http_failure`) are fields of `Delegate`; a
decision may depend on the attempt index, which determines everything the
delegate has observed so far in a run. The injected hyper client is
`transport`, giving each attempt's outcome. Per-attempt request building
(headers and the freshly computed signature, lines 612 to 640 of
src/api/tmt.rs) affects no claim and is not recorded in the trace; each
attempt emits `preRequest` (the `dlg.pre_request` callback) followed by
`send` (the `https_client.request` call). -/

/-- `client::Retry` from src/client.rs. Durations are in abstract units. -/
inductive Retry where
  | abort
  | after (d : Nat)
deriving DecidableEq

/-- An HTTP response: status code plus the full body bytes. -/
structure Response where
  status : Nat
  body : List Nat
deriving DecidableEq

/-- `hyper::StatusCode::is_success`: 2xx. -/
def isSuccessStatus (s : Nat) : Bool := 200 ≤ s && s < 300

/-- `std::io::ErrorKind` values the source constructs. -/
inductive IoErrorKind where
  | unsupported
  | other
deriving DecidableEq

/-- `crate::Error` from src/lib.rs, parametric in the transport error type
`E` (hyper::Error in the source). -/
inductive Error (E : Type) where
  | httpError (err : E)
  | uploadSizeLimitExceeded (size max : Nat)
  | badRequest (msg : String)
  | missingAPIKey
  | cancelled
  | fieldClash (f : String)
  | missingField (f : String)
  | jsonError (msg : String)
  | failure (res : Response)
  | io (kind : IoErrorKind) (msg : String)
deriving DecidableEq

/-- One observable action of a call: the delegate callbacks plus the
engine's own sends and sleeps, in order. -/
inductive Event (E : Type) where
  | begin
  | preRequest
  | send
  | httpError (e : E)
  | httpFailure (r : Response)
  | sleep (d : Nat)
  | finished (ok : Bool)
deriving DecidableEq

/-- The delegate capabilities that return data (src/client.rs `Delegate`).
`retryTimes` is a u8 in the source; the pure callbacks `begin`,
`pre_request` and `finished` appear only as trace events. -/
structure Delegate (E : Type) where
  retryTimes : Nat
  onHttpError : Nat → E → Retry
  onHttpFailure : Nat → Response → Retry

/-- `DoitArg` from src/api/tmt.rs (the client handle is abstracted into the
transport function; the payload and identifiers do not influence the
abstracted request building). -/
structure DoitArg (E : Type) where
  request_payload : String
  action : String
  doid : String
  dlg : Delegate E

/-- The attempt loop of `doit` (src/api/tmt.rs lines 609 to 677), run from
attempt `i` with `fuel` loop iterations remaining (`fuel = retry_times - i`
at every reachable call). Each iteration: build and sign the request,
`pre_request`, send; classify the outcome; on a failure consult the
delegate, then either abort (calling `finished false` and surfacing the
failure), or — unless this was the last allowed attempt — sleep and
continue. Falling out of the loop yields `Err(Error::Cancelled)`. -/
def doitLoop (dlg : Delegate E) (transport : Nat → Except E Response) :
    Nat → Nat → List (Event E) × Except (Error E) (List Nat)
  | _, 0 => ([], .error .cancelled)
  | i, fuel + 1 =>
    match transport i with
    | .error err =>
      match dlg.onHttpError i err with
      | .after d =>
        if i + 1 = dlg.retryTimes then
          ([.preRequest, .send, .httpError err], .error .cancelled)
        else
          let rest := doitLoop dlg transport (i + 1) fuel
          (.preRequest :: .send :: .httpError err :: .sleep d :: rest.1, rest.2)
      | .abort =>
        ([.preRequest, .send, .httpError err, .finished false], .error (.httpError err))
    | .ok res =>
      if !isSuccessStatus res.status then
        match dlg.onHttpFailure i res with
        | .after d =>
          if i + 1 = dlg.retryTimes then
            ([.preRequest, .send, .httpFailure res], .error .cancelled)
          else
            let rest := doitLoop dlg transport (i + 1) fuel
            (.preRequest :: .send :: .httpFailure res :: .sleep d :: rest.1, rest.2)
        | .abort =>
          ([.preRequest, .send, .httpFailure res, .finished false], .error (.failure res))
      else
        ([.preRequest, .send], .ok res.body)

/-- `doit` from src/api/tmt.rs lines 582 to 679: `begin` once, then the
attempt loop for `retry_times` iterations. -/
def doit (arg : DoitArg E) (transport : Nat → Except E Response) :
    List (Event E) × Except (Error E) (List Nat) :=
  let rest := doitLoop arg.dlg transport 0 arg.dlg.retryTimes
  (.begin :: rest.1, rest.2)

/-! ## Event counting -/

def countBegin : List (Event E) → Nat
  | [] => 0
  | .begin :: t => countBegin t + 1
  | _ :: t => countBegin t

def countPre : List (Event E) → Nat
  | [] => 0
  | .preRequest :: t => countPre t + 1
  | _ :: t => countPre t

def countSend : List (Event E) → Nat
  | [] => 0
  | .send :: t => countSend t + 1
  | _ :: t => countSend t

def countHttpError : List (Event E) → Nat
  | [] => 0
  | .httpError _ :: t => countHttpError t + 1
  | _ :: t => countHttpError t

def countHttpFailure : List (Event E) → Nat
  | [] => 0
  | .httpFailure _ :: t => countHttpFailure t + 1
  | _ :: t => countHttpFailure t

def countSleep : List (Event E) → Nat
  | [] => 0
  | .sleep _ :: t => countSleep t + 1
  | _ :: t => countSleep t

def countFinished : List (Event E) → Nat
  | [] => 0
  | .finished _ :: t => countFinished t + 1
  | _ :: t => countFinished t

/-- Attempt `i` of a run fails: the transport errors, or it returns a
non-2xx response. -/
def attemptFails (transport : Nat → Except E Response) (i : Nat) : Prop :=
  match transport i with
  | .error _ => True
  | .ok r => isSuccessStatus r.status = false

/-! ## The attachment-carrying calls (src/api/tmt.rs) -/

/-- serde_json string escaping: quote, backslash, and control characters. -/
def jsonEscapeChar (c : Char) : List Char :=
  if c = '"' then ['\\', '"']
  else if c = '\\' then ['\\', '\\']
  else if c.toNat = 8 then ['\\', 'b']
  else if c.toNat = 9 then ['\\', 't']
  else if c.toNat = 10 then ['\\', 'n']
  else if c.toNat = 12 then ['\\', 'f']
  else if c.toNat = 13 then ['\\', 'r']
  else if c.toNat < 32 then
    ['\\', 'u', '0', '0', hexDigit (c.toNat / 16), hexDigit (c.toNat % 16)]
  else [c]

/-- A JSON string literal, serde_json style. -/
def jsonString (s : String) : String :=
  "\"" ++ String.mk (s.data.flatMap jsonEscapeChar) ++ "\""

/-- serde_json serialization of `ImageTranslatePayload` (PascalCase keys,
declaration order). -/
def imageTranslateRequestPayload (project_id : Nat)
    (source target session_uuid scene : String) (data : List Nat) : String :=
  "\x7b\"ProjectId\":" ++ toString project_id ++
  ",\"Source\":" ++ jsonString source ++
  ",\"Target\":" ++ jsonString target ++
  ",\"SessionUuid\":" ++ jsonString session_uuid ++
  ",\"Scene\":" ++ jsonString scene ++
  ",\"Data\":" ++ jsonString (to_base64 data) ++ "\x7d"

/-- serde_json serialization of `SpeechTranslatePayload` (PascalCase keys,
declaration order, `ProjectId` skipped when `none`). -/
def speechTranslateRequestPayload (project_id : Option Nat)
    (source target session_uuid : String) (data : List Nat)
    (audio_format seq : Nat) (is_end : Nat) : String :=
  "\x7b" ++
  (match project_id with
   | some p => "\"ProjectId\":" ++ toString p ++ ","
   | none => "") ++
  "\"Source\":" ++ jsonString source ++
  ",\"Target\":" ++ jsonString target ++
  ",\"SessionUuid\":" ++ jsonString session_uuid ++
  ",\"Data\":" ++ jsonString (to_base64 data) ++
  ",\"AudioFormat\":" ++ toString audio_format ++
  ",\"Seq\":" ++ toString seq ++
  ",\"IsEnd\":" ++ toString is_end ++ "\x7d"

/-- `ImageTranslateCall::doit` (src/api/tmt.rs lines 251 to 287): reject the
image before any engine work when its size is at least `4 << 20` bytes,
otherwise read it, build the serialized payload and run the engine. The
image file is given as its metadata length plus its bytes. -/
def imageTranslateCallDoit (imageLen : Nat) (imageData : List Nat)
    (project_id : Nat) (source target session_uuid scene : String)
    (dlg : Delegate E) (transport : Nat → Except E Response) :
    List (Event E) × Except (Error E) (List Nat) :=
  if 4 <<< 20 ≤ imageLen then
    ([], .error (.io .unsupported "image size should be no more than 4M"))
  else
    doit
      { request_payload :=
          imageTranslateRequestPayload project_id source target session_uuid scene imageData
        action := "ImageTranslate"
        doid := "tmt.ImageTranslate"
        dlg := dlg } transport

/-- `SpeechTranslateCall::doit` (src/api/tmt.rs lines 393 to 431): the same
size guard for the audio file, then the engine. -/
def speechTranslateCallDoit (audioLen : Nat) (audioData : List Nat)
    (project_id : Option Nat) (source target session_uuid : String)
    (audio_format seq : Nat) (is_end : Nat)
    (dlg : Delegate E) (transport : Nat → Except E Response) :
    List (Event E) × Except (Error E) (List Nat) :=
  if 4 <<< 20 ≤ audioLen then
    ([], .error (.io .unsupported "audio file size should be no more than 4M"))
  else
    doit
      { request_payload :=
          speechTranslateRequestPayload project_id source target session_uuid audioData
            audio_format seq is_end
        action := "SpeechTranslate"
        doid := "tmt.SpeechTranslate"
        dlg := dlg } transport

/-! ## Concrete signer inputs used by counterexamples and witnesses -/

/-- A signer input whose u64 timestamp is exactly 2^63: its i64 cast is
-2^63 seconds, far outside the chrono-representable range, so the source
panics on `unwrap`. -/
def argPanic63 : SignatureV3Arg :=
  { content_type := "application/json; charset=utf-8"
    host := "tmt.tencentcloudapi.com"
    request_payload := "\x7b\x7d"
    service := "tmt"
    secret_key := "testkey"
    secret_id := "testid"
    timestamp := 9223372036854775808 }

/-- A signer input whose u64 timestamp is 2^64 - 1, at or above 2^63: its
i64 cast is -1, a perfectly representable instant (1969-12-31), so the
source does not panic there. -/
def argWrap : SignatureV3Arg :=
  { content_type := "application/json; charset=utf-8"
    host := "tmt.tencentcloudapi.com"
    request_payload := "\x7b\x7d"
    service := "tmt"
    secret_key := "testkey"
    secret_id := "testid"
    timestamp := 18446744073709551615 }

/-- An ordinary in-range signer input (2023-11-14). -/
def argGoldenC3 : SignatureV3Arg :=
  { content_type := "application/json; charset=utf-8"
    host := "tmt.tencentcloudapi.com"
    request_payload := "\x7b\"SourceText\":\"hello\"\x7d"
    service := "tmt"
    secret_key := "testkey"
    secret_id := "testid"
    timestamp := 1700000000 }

/-- An ordinary in-range signer input for the determinism witness. -/
def argGoldenC8 : SignatureV3Arg :=
  { content_type := "application/json; charset=utf-8"
    host := "tmt.tencentcloudapi.com"
    request_payload := "\x7b\x7d"
    service := "tmt"
    secret_key := "k2"
    secret_id := "id2"
    timestamp := 1640995200 }

/-- An out-of-range positive timestamp (10^16 seconds, beyond the maximal
chrono instant while still below 2^63). -/
def argPanicFar : SignatureV3Arg :=
  { content_type := "application/json"
    host := "tmt.tencentcloudapi.com"
    request_payload := ""
    service := "tmt"
    secret_key := "k"
    secret_id := "id"
    timestamp := 10000000000000000 }

/-- An in-range input for the partiality witness. -/
def argValidC9 : SignatureV3Arg :=
  { content_type := "application/json"
    host := "tmt.tencentcloudapi.com"
    request_payload := ""
    service := "tmt"
    secret_key := "k"
    secret_id := "id"
    timestamp := 1600000000 }

/-! ## Signer lemmas shared between claims -/

/-- With a nonzero timestamp whose i64 cast chrono cannot represent, the
signer hits the `unwrap` panic (modelled `none`). -/
theorem signature_none_of_invalid_timestamp (now : Int) (arg : SignatureV3Arg)
    (h1 : arg.timestamp ≠ 0)
    (h2 : chronoValidTs (i64OfU64 arg.timestamp) = false) :
    signature_v3_with_post now arg = none := by
  have hv : ¬(chronoMinTs ≤ i64OfU64 arg.timestamp ∧ i64OfU64 arg.timestamp ≤ chronoMaxTs) := by
    simpa [chronoValidTs] using h2
  simp only [signature_v3_with_post, timestampOpt, if_neg h1, if_neg hv]

/-- With a nonzero timestamp whose i64 cast chrono can represent, the
signer returns a signature string. -/
theorem signature_isSome_of_valid_timestamp (now : Int) (arg : SignatureV3Arg)
    (h1 : arg.timestamp ≠ 0)
    (h2 : chronoValidTs (i64OfU64 arg.timestamp) = true) :
    (signature_v3_with_post now arg).isSome = true := by
  have hv : chronoMinTs ≤ i64OfU64 arg.timestamp ∧ i64OfU64 arg.timestamp ≤ chronoMaxTs := by
    simpa [chronoValidTs] using h2
  simp only [signature_v3_with_post, timestampOpt, if_neg h1, if_pos hv, Option.isSome_some]

/-! ## Claim C3 -/

/-- Claim C3, counterexample to the unrestricted statement: at the nonzero
timestamp 2^63 the signer does not return the TC3 signature string of the
spec algorithm; it panics on the chrono `unwrap` (modelled `none`). -/
theorem c3_counterexample_panic_timestamp :
    signature_v3_with_post 0 argPanic63 = none ∧
    signature_v3_with_post 0 argPanic63 ≠ some (tc3SpecSignature argPanic63) := by
  have h : signature_v3_with_post 0 argPanic63 = none :=
    signature_none_of_invalid_timestamp 0 argPanic63 (by decide) (by decide)
  exact ⟨h, by rw [h]; simp⟩

/-- Claim C3 (amended): for every input whose nonzero timestamp casts to a
chrono-representable i64 instant, `signature_v3_with_post` returns exactly
the TC3 string of spec section 4.1: SHA-256 lowercase-hex payload hash,
canonical request with method POST, path "/", empty query, signed headers
"content-type;host", the HMAC key chain k_date, k_service, k_signing, and
the "TC3-HMAC-SHA256 Credential=..., SignedHeaders=content-type;host,
Signature=..." output — independently of the ambient clock `now`. -/
theorem c3_signature_follows_tc3 (now : Int) (arg : SignatureV3Arg)
    (h1 : arg.timestamp ≠ 0)
    (h2 : chronoValidTs (i64OfU64 arg.timestamp) = true) :
    signature_v3_with_post now arg = some (tc3SpecSignature arg) := by
  have hv : chronoMinTs ≤ i64OfU64 arg.timestamp ∧ i64OfU64 arg.timestamp ≤ chronoMaxTs := by
    simpa [chronoValidTs] using h2
  simp only [signature_v3_with_post, timestampOpt, if_neg h1, if_pos hv,
    tc3SpecSignature, hmacKeyMsg, HMAC_ALGORITHM]

/-- Claim C3, witness: the theorem applied at a concrete 2023 input. -/
theorem c3_witness :
    signature_v3_with_post 0 argGoldenC3 = some (tc3SpecSignature argGoldenC3) :=
  c3_signature_follows_tc3 0 argGoldenC3 (by decide) (by decide)

/-! ## Claim C8 -/

/-- Claim C8: the signer is deterministic and pure. Two invocations whose
seven declared inputs agree return the identical result, even across
different ambient clock values `now` (the only impure input, consulted
solely when the timestamp is zero). -/
theorem c8_signer_deterministic (now₁ now₂ : Int) (a b : SignatureV3Arg)
    (hct : a.content_type = b.content_type) (hh : a.host = b.host)
    (hp : a.request_payload = b.request_payload) (hs : a.service = b.service)
    (hk : a.secret_key = b.secret_key) (hi : a.secret_id = b.secret_id)
    (ht : a.timestamp = b.timestamp) (hnz : a.timestamp ≠ 0) :
    signature_v3_with_post now₁ a = signature_v3_with_post now₂ b := by
  have hab : a = b := by
    cases a; cases b
    simp only at hct hh hp hs hk hi ht
    subst hct hh hp hs hk hi ht
    rfl
  subst hab
  simp only [signature_v3_with_post, if_neg hnz]

/-- Claim C8, witness: the theorem applied at one concrete input and two
different clock values. -/
theorem c8_witness :
    signature_v3_with_post 1 argGoldenC8 = signature_v3_with_post 999999 argGoldenC8 :=
  c8_signer_deterministic 1 999999 argGoldenC8 argGoldenC8
    rfl rfl rfl rfl rfl rfl rfl (by decide)

/-! ## Claim C9 -/

/-- Claim C9, counterexample to its example clause: the claim offers "any
value at or above 2^63" as a panicking timestamp, but 2^64 - 1 is at or
above 2^63 and does not panic — its i64 cast is -1, a representable
instant, and the signer returns a signature. -/
theorem c9_counterexample_wrap_timestamp :
    9223372036854775808 ≤ argWrap.timestamp ∧
    argWrap.timestamp ≠ 0 ∧
    (signature_v3_with_post 0 argWrap).isSome = true := by
  refine ⟨by decide, by decide, ?_⟩
  exact signature_isSome_of_valid_timestamp 0 argWrap (by decide) (by decide)

/-- Claim C9 (amended): the signer is not total over its u64 timestamp.
For every nonzero timestamp whose i64 cast falls outside the
chrono-representable second range the signer panics on `unwrap` (modelled
`none`) — for example 2^63, whose cast is -2^63 — and totality holds
exactly under the precondition that the cast is representable. -/
theorem c9_signer_partiality :
    (∀ (now : Int) (arg : SignatureV3Arg), arg.timestamp ≠ 0 →
      chronoValidTs (i64OfU64 arg.timestamp) = false →
      signature_v3_with_post now arg = none) ∧
    (∀ (now : Int) (arg : SignatureV3Arg), arg.timestamp ≠ 0 →
      chronoValidTs (i64OfU64 arg.timestamp) = true →
      (signature_v3_with_post now arg).isSome = true) ∧
    signature_v3_with_post 0 argPanic63 = none :=
  ⟨signature_none_of_invalid_timestamp, signature_isSome_of_valid_timestamp,
   signature_none_of_invalid_timestamp 0 argPanic63 (by decide) (by decide)⟩

/-- Claim C9, witness: the two quantified parts applied at concrete inputs,
one out of range (10^16 seconds) and one in range. -/
theorem c9_witness :
    signature_v3_with_post 5 argPanicFar = none ∧
    (signature_v3_with_post 5 argValidC9).isSome = true :=
  ⟨c9_signer_partiality.1 5 argPanicFar (by decide) (by decide),
   c9_signer_partiality.2.1 5 argValidC9 (by decide) (by decide)⟩

/-! ## Concrete engine runs used by counterexamples and witnesses -/

/-- A delegate granting one attempt and aborting on any failure. -/
def dlgC1 : Delegate Nat := ⟨1, fun _ _ => .abort, fun _ _ => .abort⟩

/-- A transport that answers HTTP 200 with body b"ok" on every attempt. -/
def tpC1ok : Nat → Except Nat Response := fun _ => .ok ⟨200, [111, 107]⟩

def argC1 : DoitArg Nat := ⟨"", "TextTranslate", "tmt.TextTranslate", dlgC1⟩

/-- A delegate granting one attempt and always asking to retry after 0. -/
def dlgC1retry : Delegate Nat := ⟨1, fun _ _ => .after 0, fun _ _ => .after 0⟩

/-- A transport that fails with transport error 7 on every attempt. -/
def tpC1err : Nat → Except Nat Response := fun _ => .error 7

def argC1retry : DoitArg Nat := ⟨"", "TextTranslate", "tmt.TextTranslate", dlgC1retry⟩

def dlgC2 : Delegate Nat := ⟨1, fun _ _ => .after 0, fun _ _ => .after 0⟩

def tpC2 : Nat → Except Nat Response := fun _ => .error 7

def argC2 : DoitArg Nat := ⟨"", "TextTranslate", "tmt.TextTranslate", dlgC2⟩

/-- A delegate with the default three attempts, aborting on any failure. -/
def dlgC2w : Delegate Nat := ⟨3, fun _ _ => .abort, fun _ _ => .abort⟩

def tpC2w : Nat → Except Nat Response := fun _ => .error 7

def argC2w : DoitArg Nat := ⟨"", "TextTranslate", "tmt.TextTranslate", dlgC2w⟩

/-! ## Claim C10 -/

/-- Claim C10: with `retry_times() = 0` the loop body never runs — no
`pre_request`, no send, no sleep, no failure callbacks, no `finished` —
yet `begin` still fires once and the call returns `Error::Cancelled`. -/
theorem c10_zero_retries_cancelled (arg : DoitArg E) (tp : Nat → Except E Response)
    (h : arg.dlg.retryTimes = 0) :
    doit arg tp = ([.begin], .error .cancelled) := by
  unfold doit
  rw [h]
  rfl

/-- Claim C10, witness: a zero-retry delegate against a transport that
would succeed if it were ever consulted. -/
def dlgC10 : Delegate Nat := ⟨0, fun _ _ => .abort, fun _ _ => .abort⟩

def argC10 : DoitArg Nat := ⟨"", "TextTranslate", "tmt.TextTranslate", dlgC10⟩

theorem c10_witness :
    doit argC10 (fun _ => .ok ⟨200, []⟩) = ([.begin], .error .cancelled) :=
  c10_zero_retries_cancelled argC10 (fun _ => .ok ⟨200, []⟩) rfl

/-! ## Claim C7 -/

/-- Claim C7: a 2xx response on the first attempt returns the full body
immediately — the whole run is `begin`, one `pre_request`, one send, no
sleeps, no further attempts, and `Ok(body)`. -/
theorem c7_success_first_attempt (arg : DoitArg E) (tp : Nat → Except E Response)
    (r : Response) (h1 : 1 ≤ arg.dlg.retryTimes) (h2 : tp 0 = .ok r)
    (h3 : isSuccessStatus r.status = true) :
    doit arg tp = ([.begin, .preRequest, .send], .ok r.body) := by
  obtain ⟨k, hk⟩ := Nat.exists_eq_add_of_le h1
  have hk' : arg.dlg.retryTimes = k + 1 := by omega
  unfold doit
  rw [hk']
  simp [doitLoop, h2, h3]

def dlgC7 : Delegate Nat := ⟨3, fun _ _ => .abort, fun _ _ => .abort⟩

def argC7 : DoitArg Nat := ⟨"", "TextTranslate", "tmt.TextTranslate", dlgC7⟩

/-- Claim C7, witness: HTTP 200 with body b"ok" on attempt 0 yields
`Ok(b"ok")` with exactly one `pre_request` and no sleep. -/
theorem c7_witness :
    doit argC7 (fun _ => .ok ⟨200, [111, 107]⟩) =
      ([.begin, .preRequest, .send], .ok [111, 107]) :=
  c7_success_first_attempt argC7 (fun _ => .ok ⟨200, [111, 107]⟩) ⟨200, [111, 107]⟩
    (by decide) rfl (by decide)

/-! ## Claim C6 -/

/-- Claim C6: an `Abort` answer on the first failed attempt ends the call
after exactly one attempt with no sleep, surfacing that attempt's failure:
the transport error as `Error::HttpError` after `http_error`, or the
response as `Error::Failure` after `http_failure`. -/
theorem c6_abort_immediacy (arg : DoitArg E) (tp : Nat → Except E Response)
    (e : E) (r : Response) :
    (1 ≤ arg.dlg.retryTimes → tp 0 = .error e → arg.dlg.onHttpError 0 e = .abort →
      doit arg tp =
        ([.begin, .preRequest, .send, .httpError e, .finished false],
         .error (.httpError e))) ∧
    (1 ≤ arg.dlg.retryTimes → tp 0 = .ok r → isSuccessStatus r.status = false →
      arg.dlg.onHttpFailure 0 r = .abort →
      doit arg tp =
        ([.begin, .preRequest, .send, .httpFailure r, .finished false],
         .error (.failure r))) := by
  constructor
  · intro h1 h2 h3
    obtain ⟨k, hk⟩ := Nat.exists_eq_add_of_le h1
    have hk' : arg.dlg.retryTimes = k + 1 := by omega
    unfold doit
    rw [hk']
    simp [doitLoop, h2, h3]
  · intro h1 h2 h3 h4
    obtain ⟨k, hk⟩ := Nat.exists_eq_add_of_le h1
    have hk' : arg.dlg.retryTimes = k + 1 := by omega
    unfold doit
    rw [hk']
    simp [doitLoop, h2, h3, h4]

def dlgC6 : Delegate Nat := ⟨3, fun _ _ => .abort, fun _ _ => .abort⟩

def argC6 : DoitArg Nat := ⟨"", "TextTranslate", "tmt.TextTranslate", dlgC6⟩

/-- Claim C6, witness: both halves at concrete runs — a transport error 9
aborted via `http_error`, and an HTTP 500 aborted via `http_failure`. -/
theorem c6_witness :
    doit argC6 (fun _ => .error 9) =
      ([.begin, .preRequest, .send, .httpError 9, .finished false],
       .error (.httpError 9)) ∧
    doit argC6 (fun _ => .ok ⟨500, [101]⟩) =
      ([.begin, .preRequest, .send, .httpFailure ⟨500, [101]⟩, .finished false],
       .error (.failure ⟨500, [101]⟩)) :=
  ⟨(c6_abort_immediacy argC6 (fun _ => .error 9) 9 ⟨500, [101]⟩).1
     (by decide) rfl rfl,
   (c6_abort_immediacy argC6 (fun _ => .ok ⟨500, [101]⟩) 9 ⟨500, [101]⟩).2
     (by decide) rfl (by decide) rfl⟩

/-! ## Claim C1 -/

/-- Claim C1 is false of the code: `finished` is invoked only on the
observer-abort exits. On a successful call (here: one granted attempt,
HTTP 200 b"ok") `begin` fires once but `finished` never fires, and on a
retries-exhausted call `finished` never fires either — contradicting the
Delegate documentation, which promises a matching `finished` for every
`begin`. -/
theorem c1_finished_not_bracketed :
    countBegin (doit argC1 tpC1ok).1 = 1 ∧
    countFinished (doit argC1 tpC1ok).1 = 0 ∧
    (doit argC1 tpC1ok).2 = .ok [111, 107] ∧
    countBegin (doit argC1retry tpC1err).1 = 1 ∧
    countFinished (doit argC1retry tpC1err).1 = 0 ∧
    (doit argC1retry tpC1err).2 = .error .cancelled :=
  ⟨rfl, rfl, rfl, rfl, rfl, rfl⟩

/-! ## Claim C2 -/

/-- Whenever the loop ends in `Error::HttpError e`, the last attempt's
transport outcome was exactly that error and the delegate answered `Abort`
to it. The last attempt index is the number of `pre_request` events minus
one. -/
theorem doitLoop_httpError_surfaces (dlg : Delegate E)
    (tp : Nat → Except E Response) (e : E) :
    ∀ fuel i, (doitLoop dlg tp i fuel).2 = .error (.httpError e) →
      tp (i + countPre (doitLoop dlg tp i fuel).1 - 1) = .error e ∧
      dlg.onHttpError (i + countPre (doitLoop dlg tp i fuel).1 - 1) e = .abort := by
  intro fuel
  induction fuel with
  | zero => intro i h; simp [doitLoop] at h
  | succ f ih =>
    intro i h
    cases htp : tp i with
    | error err =>
      cases hdec : dlg.onHttpError i err with
      | abort =>
        simp only [doitLoop, htp, hdec] at h ⊢
        simp only [Except.error.injEq, Error.httpError.injEq] at h
        subst h
        simp only [countPre, Nat.add_sub_cancel]
        exact ⟨htp, hdec⟩
      | after d =>
        by_cases hlast : i + 1 = dlg.retryTimes
        · simp [doitLoop, htp, hdec, if_pos hlast] at h
        · simp only [doitLoop, htp, hdec, if_neg hlast] at h ⊢
          have IH := ih (i + 1) h
          have hidx :
              i + countPre (.preRequest :: .send :: .httpError err :: .sleep d ::
                (doitLoop dlg tp (i + 1) f).1) - 1 =
              i + 1 + countPre (doitLoop dlg tp (i + 1) f).1 - 1 := by
            simp only [countPre]
            omega
          rw [hidx]
          exact IH
    | ok res =>
      by_cases hs : isSuccessStatus res.status
      · simp [doitLoop, htp, hs] at h
      · have hs' : isSuccessStatus res.status = false := by simpa using hs
        cases hdec : dlg.onHttpFailure i res with
        | abort => simp [doitLoop, htp, hs', hdec] at h
        | after d =>
          by_cases hlast : i + 1 = dlg.retryTimes
          · simp [doitLoop, htp, hs', hdec, if_pos hlast] at h
          · simp only [doitLoop, htp, hs', hdec, if_neg hlast, Bool.not_false,
              if_true] at h ⊢
            have IH := ih (i + 1) h
            have hidx :
                i + countPre (.preRequest :: .send :: .httpFailure res :: .sleep d ::
                  (doitLoop dlg tp (i + 1) f).1) - 1 =
                i + 1 + countPre (doitLoop dlg tp (i + 1) f).1 - 1 := by
              simp only [countPre]
              omega
            rw [hidx]
            exact IH

/-- Whenever the loop ends in `Error::Failure res`, the last attempt got
exactly that non-2xx response and the delegate answered `Abort` to it. -/
theorem doitLoop_failure_surfaces (dlg : Delegate E)
    (tp : Nat → Except E Response) (r : Response) :
    ∀ fuel i, (doitLoop dlg tp i fuel).2 = .error (.failure r) →
      tp (i + countPre (doitLoop dlg tp i fuel).1 - 1) = .ok r ∧
      isSuccessStatus r.status = false ∧
      dlg.onHttpFailure (i + countPre (doitLoop dlg tp i fuel).1 - 1) r = .abort := by
  intro fuel
  induction fuel with
  | zero => intro i h; simp [doitLoop] at h
  | succ f ih =>
    intro i h
    cases htp : tp i with
    | error err =>
      cases hdec : dlg.onHttpError i err with
      | abort => simp [doitLoop, htp, hdec] at h
      | after d =>
        by_cases hlast : i + 1 = dlg.retryTimes
        · simp [doitLoop, htp, hdec, if_pos hlast] at h
        · simp only [doitLoop, htp, hdec, if_neg hlast] at h ⊢
          have IH := ih (i + 1) h
          have hidx :
              i + countPre (.preRequest :: .send :: .httpError err :: .sleep d ::
                (doitLoop dlg tp (i + 1) f).1) - 1 =
              i + 1 + countPre (doitLoop dlg tp (i + 1) f).1 - 1 := by
            simp only [countPre]
            omega
          rw [hidx]
          exact IH
    | ok res =>
      by_cases hs : isSuccessStatus res.status
      · simp [doitLoop, htp, hs] at h
      · have hs' : isSuccessStatus res.status = false := by simpa using hs
        cases hdec : dlg.onHttpFailure i res with
        | abort =>
          simp only [doitLoop, htp, hs', hdec, Bool.not_false, if_true] at h ⊢
          simp only [Except.error.injEq, Error.failure.injEq] at h
          subst h
          simp only [countPre, Nat.add_sub_cancel]
          exact ⟨htp, hs', hdec⟩
        | after d =>
          by_cases hlast : i + 1 = dlg.retryTimes
          · simp [doitLoop, htp, hs', hdec, if_pos hlast] at h
          · simp only [doitLoop, htp, hs', hdec, if_neg hlast, Bool.not_false,
              if_true] at h ⊢
            have IH := ih (i + 1) h
            have hidx :
                i + countPre (.preRequest :: .send :: .httpFailure res :: .sleep d ::
                  (doitLoop dlg tp (i + 1) f).1) - 1 =
                i + 1 + countPre (doitLoop dlg tp (i + 1) f).1 - 1 := by
              simp only [countPre]
              omega
            rw [hidx]
            exact IH

/-- Claim C2, counterexample to the unrestricted statement: with one
granted attempt and a delegate asking to retry, the transport error 7 ends
the call through the exhausted-retries exit, which returns
`Error::Cancelled` — an error value that does not carry the original
failure — although the failed attempt did consult `http_error` with it. -/
theorem c2_counterexample_exhausted_swallows :
    (doit argC2 tpC2).2 = .error .cancelled ∧
    (doit argC2 tpC2).2 ≠ .error (.httpError 7) ∧
    countHttpError (doit argC2 tpC2).1 = 1 := by
  refine ⟨rfl, ?_, rfl⟩
  intro h
  have h' : (Except.error Error.cancelled : Except (Error Nat) (List Nat)) =
      .error (.httpError 7) := h
  simp at h'

/-- Claim C2 (amended): when the engine ends with `Error::HttpError` or
`Error::Failure` — the observer-abort terminal errors — the error value is
exactly the last attempt's original failure (the transport error, or the
non-2xx response with status and body). When the retry budget is
exhausted the engine returns `Error::Cancelled` instead, which omits the
original failure. -/
theorem c2_terminal_error_preserves_failure (arg : DoitArg E)
    (tp : Nat → Except E Response) (e : E) (r : Response) :
    ((doit arg tp).2 = .error (.httpError e) →
      tp (countPre (doit arg tp).1 - 1) = .error e ∧
      arg.dlg.onHttpError (countPre (doit arg tp).1 - 1) e = .abort) ∧
    ((doit arg tp).2 = .error (.failure r) →
      tp (countPre (doit arg tp).1 - 1) = .ok r ∧
      isSuccessStatus r.status = false ∧
      arg.dlg.onHttpFailure (countPre (doit arg tp).1 - 1) r = .abort) := by
  constructor
  · intro h
    have h' : (doitLoop arg.dlg tp 0 arg.dlg.retryTimes).2 = .error (.httpError e) := h
    have IH := doitLoop_httpError_surfaces arg.dlg tp e arg.dlg.retryTimes 0 h'
    simpa [doit, countPre] using IH
  · intro h
    have h' : (doitLoop arg.dlg tp 0 arg.dlg.retryTimes).2 = .error (.failure r) := h
    have IH := doitLoop_failure_surfaces arg.dlg tp r arg.dlg.retryTimes 0 h'
    simpa [doit, countPre] using IH

/-- Claim C2, witness: a three-attempt delegate aborting on the first
transport error 7; the terminal `Error::HttpError` carries exactly that
error. -/
theorem c2_witness :
    tpC2w (countPre (doit argC2w tpC2w).1 - 1) = .error 7 ∧
    argC2w.dlg.onHttpError (countPre (doit argC2w tpC2w).1 - 1) 7 = .abort :=
  (c2_terminal_error_preserves_failure argC2w tpC2w 7 ⟨500, []⟩).1 rfl

/-! ## Claim C4 -/

/-- With decisions always `RetryAfter(0)` and every attempt failing, the
loop started at attempt `i` with `fuel = retry_times - i ≥ 1` iterations
left performs exactly `fuel` attempts, sleeps `fuel - 1` times, never calls
`finished` or `begin`, and falls out with `Error::Cancelled`. -/
theorem doitLoop_exhausts_budget (dlg : Delegate E) (tp : Nat → Except E Response)
    (hE : ∀ i e, dlg.onHttpError i e = .after 0)
    (hF : ∀ i r, dlg.onHttpFailure i r = .after 0)
    (hfail : ∀ j, attemptFails tp j) :
    ∀ fuel i, 1 ≤ fuel → i + fuel = dlg.retryTimes →
      countPre (doitLoop dlg tp i fuel).1 = fuel ∧
      countSend (doitLoop dlg tp i fuel).1 = fuel ∧
      countSleep (doitLoop dlg tp i fuel).1 = fuel - 1 ∧
      countFinished (doitLoop dlg tp i fuel).1 = 0 ∧
      countBegin (doitLoop dlg tp i fuel).1 = 0 ∧
      (doitLoop dlg tp i fuel).2 = .error .cancelled := by
  intro fuel
  induction fuel with
  | zero => intro i h1 h2; exact absurd h1 (by decide)
  | succ f ih =>
    intro i h1 h2
    cases htp : tp i with
    | error err =>
      by_cases hf0 : f = 0
      · subst hf0
        have hlast : i + 1 = dlg.retryTimes := by omega
        simp [doitLoop, htp, hE, if_pos hlast, countPre, countSend, countSleep,
          countFinished, countBegin]
      · have hlast : ¬(i + 1 = dlg.retryTimes) := by omega
        obtain ⟨hp, hsn, hsl, hfin, hbeg, hres⟩ := ih (i + 1) (by omega) (by omega)
        simp only [doitLoop, htp, hE, if_neg hlast, countPre, countSend, countSleep,
          countFinished, countBegin]
        exact ⟨by omega, by omega, by omega, hfin, hbeg, hres⟩
    | ok res =>
      have hs' : isSuccessStatus res.status = false := by
        simpa [attemptFails, htp] using hfail i
      by_cases hf0 : f = 0
      · subst hf0
        have hlast : i + 1 = dlg.retryTimes := by omega
        simp [doitLoop, htp, hs', hF, if_pos hlast, countPre, countSend, countSleep,
          countFinished, countBegin]
      · have hlast : ¬(i + 1 = dlg.retryTimes) := by omega
        obtain ⟨hp, hsn, hsl, hfin, hbeg, hres⟩ := ih (i + 1) (by omega) (by omega)
        simp only [doitLoop, htp, hs', hF, if_neg hlast, Bool.not_false, if_true,
          countPre, countSend, countSleep, countFinished, countBegin]
        exact ⟨by omega, by omega, by omega, hfin, hbeg, hres⟩

/-- Claim C4: with `retry_times() = N ≥ 1`, every decision `RetryAfter(0)`,
and every attempt failing, the engine makes exactly N attempts — N
`pre_request` calls and N transport sends — sleeps exactly N - 1 times,
and returns the exhausted-retries terminal error (`Error::Cancelled`,
never calling `finished`); the final attempt does not sleep. -/
theorem c4_retry_bound (arg : DoitArg E) (tp : Nat → Except E Response)
    (h1 : 1 ≤ arg.dlg.retryTimes)
    (hE : ∀ i e, arg.dlg.onHttpError i e = .after 0)
    (hF : ∀ i r, arg.dlg.onHttpFailure i r = .after 0)
    (hfail : ∀ j, attemptFails tp j) :
    countBegin (doit arg tp).1 = 1 ∧
    countPre (doit arg tp).1 = arg.dlg.retryTimes ∧
    countSend (doit arg tp).1 = arg.dlg.retryTimes ∧
    countSleep (doit arg tp).1 = arg.dlg.retryTimes - 1 ∧
    countFinished (doit arg tp).1 = 0 ∧
    (doit arg tp).2 = .error .cancelled := by
  obtain ⟨hp, hsn, hsl, hfin, hbeg, hres⟩ :=
    doitLoop_exhausts_budget arg.dlg tp hE hF hfail arg.dlg.retryTimes 0 h1 (by omega)
  refine ⟨?_, ?_, ?_, ?_, ?_, hres⟩ <;>
    simpa [doit, countBegin, countPre, countSend, countSleep, countFinished]
      using by omega

def dlgC4 : Delegate Nat := ⟨3, fun _ _ => .after 0, fun _ _ => .after 0⟩

def argC4 : DoitArg Nat := ⟨"", "TextTranslate", "tmt.TextTranslate", dlgC4⟩

def tpC4 : Nat → Except Nat Response := fun _ => .error 5

/-- Claim C4, witness: N = 3 against an always-failing transport — three
attempts, two sleeps, `Cancelled`. -/
theorem c4_witness :
    countBegin (doit argC4 tpC4).1 = 1 ∧
    countPre (doit argC4 tpC4).1 = 3 ∧
    countSend (doit argC4 tpC4).1 = 3 ∧
    countSleep (doit argC4 tpC4).1 = 2 ∧
    countFinished (doit argC4 tpC4).1 = 0 ∧
    (doit argC4 tpC4).2 = .error .cancelled :=
  c4_retry_bound argC4 tpC4 (by decide) (fun _ _ => rfl) (fun _ _ => rfl)
    (fun _ => trivial)

/-! ## Claim C5 -/

/-- Claim C5: the attachment size guard of the image and speech calls.
A file strictly below `4 << 20` bytes passes the guard and the call
becomes exactly an engine run on the serialized payload (which signs per
attempt); a file of `4 << 20` bytes or more is rejected up front with the
size-limit error, before any engine work — the empty trace shows that no
observer callback, send or sleep happens. -/
theorem c5_attachment_size_guard (imageLen audioLen : Nat)
    (imageData audioData : List Nat) (pid : Nat) (pidO : Option Nat)
    (src tgt uuid scene : String) (af sq : Nat) (ie : Nat)
    (dlg : Delegate E) (tp : Nat → Except E Response) :
    (imageLen < 4194304 →
      imageTranslateCallDoit imageLen imageData pid src tgt uuid scene dlg tp =
        doit
          { request_payload :=
              imageTranslateRequestPayload pid src tgt uuid scene imageData
            action := "ImageTranslate"
            doid := "tmt.ImageTranslate"
            dlg := dlg } tp) ∧
    (4194304 ≤ imageLen →
      imageTranslateCallDoit imageLen imageData pid src tgt uuid scene dlg tp =
        ([], .error (.io .unsupported "image size should be no more than 4M"))) ∧
    (audioLen < 4194304 →
      speechTranslateCallDoit audioLen audioData pidO src tgt uuid af sq ie dlg tp =
        doit
          { request_payload :=
              speechTranslateRequestPayload pidO src tgt uuid audioData af sq ie
            action := "SpeechTranslate"
            doid := "tmt.SpeechTranslate"
            dlg := dlg } tp) ∧
    (4194304 ≤ audioLen →
      speechTranslateCallDoit audioLen audioData pidO src tgt uuid af sq ie dlg tp =
        ([], .error (.io .unsupported "audio file size should be no more than 4M"))) := by
  have h20 : (4 <<< 20 : Nat) = 4194304 := by norm_num [Nat.shiftLeft_eq]
  refine ⟨fun h => ?_, fun h => ?_, fun h => ?_, fun h => ?_⟩
  · unfold imageTranslateCallDoit
    rw [if_neg (by omega)]
  · unfold imageTranslateCallDoit
    rw [if_pos (by omega)]
  · unfold speechTranslateCallDoit
    rw [if_neg (by omega)]
  · unfold speechTranslateCallDoit
    rw [if_pos (by omega)]

def dlgC5 : Delegate Nat := ⟨3, fun _ _ => .abort, fun _ _ => .abort⟩

def tpC5 : Nat → Except Nat Response := fun _ => .ok ⟨200, []⟩

/-- Claim C5, witness: 4 MiB - 1 = 4194303 bytes passes both guards and
proceeds to the engine; exactly 4 MiB = 4194304 bytes is rejected with the
size-limit error and an empty trace. -/
theorem c5_witness :
    imageTranslateCallDoit 4194303 [1] 1 "en" "zh" "u" "doc" dlgC5 tpC5 =
      doit
        { request_payload := imageTranslateRequestPayload 1 "en" "zh" "u" "doc" [1]
          action := "ImageTranslate"
          doid := "tmt.ImageTranslate"
          dlg := dlgC5 } tpC5 ∧
    imageTranslateCallDoit 4194304 [1] 1 "en" "zh" "u" "doc" dlgC5 tpC5 =
      ([], .error (.io .unsupported "image size should be no more than 4M")) ∧
    speechTranslateCallDoit 4194303 [1] none "en" "zh" "u" 1 0 1 dlgC5 tpC5 =
      doit
        { request_payload := speechTranslateRequestPayload none "en" "zh" "u" [1] 1 0 1
          action := "SpeechTranslate"
          doid := "tmt.SpeechTranslate"
          dlg := dlgC5 } tpC5 ∧
    speechTranslateCallDoit 4194304 [1] none "en" "zh" "u" 1 0 1 dlgC5 tpC5 =
      ([], .error (.io .unsupported "audio file size should be no more than 4M")) :=
  ⟨(c5_attachment_size_guard 4194303 0 [1] [1] 1 none "en" "zh" "u" "doc" 1 0 1
      dlgC5 tpC5).1 (by decide),
   (c5_attachment_size_guard 4194304 0 [1] [1] 1 none "en" "zh" "u" "doc" 1 0 1
      dlgC5 tpC5).2.1 (by decide),
   (c5_attachment_size_guard 0 4194303 [1] [1] 1 none "en" "zh" "u" "doc" 1 0 1
      dlgC5 tpC5).2.2.1 (by decide),
   (c5_attachment_size_guard 0 4194304 [1] [1] 1 none "en" "zh" "u" "doc" 1 0 1
      dlgC5 tpC5).2.2.2 (by decide)⟩

end Tencent3
